import Mathlib

/-!
Verification development for the Admissions Navigator single-page application
(a React onboarding form plus a Gemini prompt builder).  The TypeScript
sources `App.tsx`, `services/geminiService.ts` and `types.ts` are shallowly
embedded below: JSX views become functions into explicit view-model
structures, React state updates become functions on explicit state records,
and the browser primitives that the code calls (`String.prototype.trim`,
`JSON.parse`, geolocation, the generative-model endpoint) are modelled as
pure functions or explicit outcome parameters.
-/

set_option maxRecDepth 100000

namespace AdmNav

/-! ## JavaScript string primitives -/

/-- The WhiteSpace and LineTerminator code points recognised by
`String.prototype.trim`. -/
def jsWsChars : List Char :=
  [' ', '\t', '\n', '\x0b', '\x0c', '\r', '\u00A0', '\uFEFF',
   '\u1680', '\u2000', '\u2001', '\u2002', '\u2003', '\u2004', '\u2005',
   '\u2006', '\u2007', '\u2008', '\u2009', '\u200A', '\u2028', '\u2029',
   '\u202F', '\u205F', '\u3000']

/-- Whether a character is JavaScript whitespace. -/
def jsWs (c : Char) : Bool := jsWsChars.contains c

/-- Remove the trailing characters satisfying `p`. -/
def rstrip (p : Char → Bool) : List Char → List Char
  | [] => []
  | a :: t =>
    match rstrip p t with
    | [] => if p a then [] else [a]
    | b :: u => a :: b :: u

/-- Remove leading and trailing characters satisfying `p`. -/
def trimList (p : Char → Bool) (l : List Char) : List Char :=
  rstrip p (l.dropWhile p)

/-- Model of `String.prototype.trim`. -/
def jsTrim (s : String) : String := String.mk (trimList jsWs s.toList)

theorem rstrip_rstrip (p : Char → Bool) (l : List Char) :
    rstrip p (rstrip p l) = rstrip p l := by
  induction l with
  | nil => rfl
  | cons a t ih =>
    cases h : rstrip p t with
    | nil =>
      by_cases hp : p a
      · simp [rstrip, h, hp]
      · simp [rstrip, h, hp]
    | cons b u =>
      rw [h] at ih
      simp only [rstrip, h]
      simpa [rstrip] using congrArg (fun x => match x with
        | [] => if p a then ([] : List Char) else [a]
        | b :: u => a :: b :: u) ih

theorem head_of_rstrip (p : Char → Bool) (l : List Char) (c : Char)
    (h : (rstrip p l).head? = some c) : l.head? = some c := by
  induction l with
  | nil => simp [rstrip] at h
  | cons a t ih =>
    cases h2 : rstrip p t with
    | nil =>
      by_cases hp : p a
      · simp [rstrip, h2, hp] at h
      · simp [rstrip, h2, hp] at h
        simp [h]
    | cons b u =>
      simp [rstrip, h2] at h
      simp [h]

theorem head_of_dropWhile (p : Char → Bool) (l : List Char) (c : Char)
    (h : (l.dropWhile p).head? = some c) : p c = false := by
  induction l with
  | nil => simp [List.dropWhile] at h
  | cons a t ih =>
    by_cases hp : p a
    · simpa [List.dropWhile, hp] using ih (by simpa [List.dropWhile, hp] using h)
    · simp [List.dropWhile, hp] at h
      subst h
      simpa using hp

theorem dropWhile_of_head (p : Char → Bool) (l : List Char)
    (h : ∀ c, l.head? = some c → p c = false) : l.dropWhile p = l := by
  cases l with
  | nil => rfl
  | cons a t => simp [List.dropWhile, h a rfl]

theorem trimList_idem (p : Char → Bool) (l : List Char) :
    trimList p (trimList p l) = trimList p l := by
  unfold trimList
  rw [dropWhile_of_head p (rstrip p (l.dropWhile p)) ?hd, rstrip_rstrip]
  intro c hc
  exact head_of_dropWhile p l c (head_of_rstrip p _ c hc)

theorem jsTrim_idem (s : String) : jsTrim (jsTrim s) = jsTrim s := by
  unfold jsTrim
  rw [show (String.mk (trimList jsWs s.toList)).toList
        = trimList jsWs s.toList from rfl, trimList_idem]

/-! ## Data model (`types.ts`), plus the `studentName` field that
`App.tsx` adds to the student record at runtime. -/

structure ImagePayload where
  mimeType : String
  data : String
deriving DecidableEq, Repr

structure ManualAcademicRecord where
  awards : String
  creativeActivities : String
  detailedAbilities : String
  readingActivities : String
  behavioralCharacteristics : String
deriving DecidableEq, Repr

structure MockExam where
  korean : String
  math : String
  english : String
  inquiry1 : String
  inquiry2 : String
deriving DecidableEq, Repr

structure StudentInfo where
  grade : String
  desiredField : String
  studentName : String
  academicRecord : Option String
  academicRecordImage : Option ImagePayload
  manualAcademicRecord : Option ManualAcademicRecord
  mockExam : MockExam
deriving DecidableEq, Repr

/-- `Object.values` on a `ManualAcademicRecord` literal. -/
def manualValues (r : ManualAcademicRecord) : List String :=
  [r.awards, r.creativeActivities, r.detailedAbilities,
   r.readingActivities, r.behavioralCharacteristics]

/-- `Object.values` on the `mockExam` object. -/
def mockValues (m : MockExam) : List String :=
  [m.korean, m.math, m.english, m.inquiry1, m.inquiry2]

/-! ## Step completion (`App.tsx`, `isStepComplete`) -/

/-- The per-step completion predicate of the onboarding component.  Step 1
requires a chosen grade and a non-blank desired field, step 2 requires some
non-blank manual-record field, step 3 requires all five mock-exam scores to
be non-blank, and every other step number reports incomplete. -/
def isStepComplete (step : Nat) (info : StudentInfo) : Bool :=
  match step with
  | 1 => info.grade != "" && jsTrim info.desiredField != ""
  | 2 =>
    match info.manualAcademicRecord with
    | none => false
    | some r => (manualValues r).any (fun v => jsTrim v != "")
  | 3 => (mockValues info.mockExam).all (fun v => jsTrim v != "")
  | _ => false

/-! ## JSON (model of the browser built-in `JSON.parse`)

`JSON.parse` is an external browser primitive, not source of this
repository; it is modelled here by a complete recursive-descent parser for
the JSON grammar.  Numbers are modelled as exact rationals (the abstraction
of JavaScript numbers used throughout this development), and the
whitespace permitted around the document is skipped with the same
whitespace set as `String.prototype.trim`. -/

inductive Json where
  | null
  | bool (b : Bool)
  | num (q : ℚ)
  | str (s : String)
  | arr (elems : List Json)
  | obj (fields : List (String × Json))
deriving Repr

/-- Whitespace between JSON tokens. -/
def jsonWs (c : Char) : Bool :=
  c = ' ' || c = '\t' || c = '\n' || c = '\r'

def skipJsonWs (l : List Char) : List Char := l.dropWhile jsonWs

def digitsVal (ds : List Char) : Nat :=
  ds.foldl (fun a c => a * 10 + (c.toNat - 48)) 0

/-- The integer part of a JSON number: a single `0`, or a non-empty digit
run not starting with `0`. -/
def parseIntDigits : List Char → Option (Nat × List Char)
  | '0' :: r => some (0, r)
  | l =>
    let ds := l.takeWhile Char.isDigit
    if ds.isEmpty then none
    else if ds.head? = some '0' then none
    else some (digitsVal ds, l.drop ds.length)

/-- A JSON number literal, returned as an exact rational.  A dangling `.`
or exponent marker is left in the remainder, where the caller's
end-of-value check rejects it, matching `JSON.parse`'s refusal of such
literals. -/
def parseNumber (l : List Char) : Option (ℚ × List Char) :=
  let (neg, l1) := match l with
    | '-' :: r => (true, r)
    | _ => (false, l)
  match parseIntDigits l1 with
  | none => none
  | some (ip, l2) =>
    let (fq, l3) : ℚ × List Char := match l2 with
      | '.' :: r =>
        let ds := r.takeWhile Char.isDigit
        if ds.isEmpty then (0, l2)
        else ((digitsVal ds : ℚ) / (10 : ℚ) ^ ds.length, r.drop ds.length)
      | _ => (0, l2)
    let (ex, l4) : ℤ × List Char := match l3 with
      | 'e' :: r | 'E' :: r =>
        let (esign, r1) : ℤ × List Char := match r with
          | '+' :: r2 => (1, r2)
          | '-' :: r2 => (-1, r2)
          | _ => (1, r)
        let ds := r1.takeWhile Char.isDigit
        if ds.isEmpty then (0, l3)
        else (esign * (digitsVal ds : ℤ), r1.drop ds.length)
      | _ => (0, l3)
    let base : ℚ := (ip : ℚ) + fq
    some ((if neg then -base else base) * (10 : ℚ) ^ ex, l4)

/-- The body of a JSON string literal, after the opening quote.  `acc`
holds the characters read so far, in reverse. -/
def parseStringAux : Nat → List Char → List Char → Option (String × List Char)
  | 0, _, _ => none
  | fuel + 1, acc, l =>
    match l with
    | [] => none
    | '"' :: r => some (String.mk acc.reverse, r)
    | '\\' :: esc =>
      match esc with
      | 'u' :: a :: b :: c :: d :: r =>
        match isHex a && isHex b && isHex c && isHex d with
        | false => none
        | true =>
          let n := (hexVal a) * 4096 + (hexVal b) * 256 + (hexVal c) * 16 + hexVal d
          match r with
          | '\\' :: 'u' :: e :: f :: g :: h :: r2 =>
            if 0xD800 ≤ n ∧ n ≤ 0xDBFF ∧
                (isHex e && isHex f && isHex g && isHex h) = true ∧
                0xDC00 ≤ (hexVal e) * 4096 + (hexVal f) * 256 + (hexVal g) * 16 + hexVal h ∧
                (hexVal e) * 4096 + (hexVal f) * 256 + (hexVal g) * 16 + hexVal h ≤ 0xDFFF then
              let m := (hexVal e) * 4096 + (hexVal f) * 256 + (hexVal g) * 16 + hexVal h
              parseStringAux fuel
                (Char.ofNat (0x10000 + (n - 0xD800) * 0x400 + (m - 0xDC00)) :: acc) r2
            else
              parseStringAux fuel (Char.ofNat n :: acc) r
          | _ => parseStringAux fuel (Char.ofNat n :: acc) r
      | '"' :: r => parseStringAux fuel ('"' :: acc) r
      | '\\' :: r => parseStringAux fuel ('\\' :: acc) r
      | '/' :: r => parseStringAux fuel ('/' :: acc) r
      | 'b' :: r => parseStringAux fuel ('\x08' :: acc) r
      | 'f' :: r => parseStringAux fuel ('\x0c' :: acc) r
      | 'n' :: r => parseStringAux fuel ('\n' :: acc) r
      | 'r' :: r => parseStringAux fuel ('\r' :: acc) r
      | 't' :: r => parseStringAux fuel ('\t' :: acc) r
      | _ => none
    | c :: r =>
      if c.toNat < 0x20 then none
      else parseStringAux fuel (c :: acc) r
where
  isHex (c : Char) : Bool :=
    c.isDigit || ('a' ≤ c && c ≤ 'f') || ('A' ≤ c && c ≤ 'F')
  hexVal (c : Char) : Nat :=
    if c.isDigit then c.toNat - 48
    else if 'a' ≤ c ∧ c ≤ 'f' then c.toNat - 87
    else if 'A' ≤ c ∧ c ≤ 'F' then c.toNat - 55
    else 0

mutual

/-- A JSON value.  The input is expected to start at the value's first
token character; whitespace before it has already been skipped. -/
def parseVal : Nat → List Char → Option (Json × List Char)
  | 0, _ => none
  | fuel + 1, l =>
    match l with
    | 'n' :: 'u' :: 'l' :: 'l' :: r => some (.null, r)
    | 't' :: 'r' :: 'u' :: 'e' :: r => some (.bool true, r)
    | 'f' :: 'a' :: 'l' :: 's' :: 'e' :: r => some (.bool false, r)
    | '"' :: r =>
      match parseStringAux fuel [] r with
      | none => none
      | some (s, r2) => some (.str s, r2)
    | '[' :: r =>
      match skipJsonWs r with
      | ']' :: r2 => some (.arr [], r2)
      | r1 =>
        match parseElems fuel r1 with
        | none => none
        | some (xs, r2) => some (.arr xs, r2)
    | '\x7b' :: r =>
      match skipJsonWs r with
      | '\x7d' :: r2 => some (.obj [], r2)
      | r1 =>
        match parseFields fuel r1 with
        | none => none
        | some (fs, r2) => some (.obj fs, r2)
    | '-' :: _ =>
      match parseNumber l with
      | none => none
      | some (q, r2) => some (.num q, r2)
    | c :: _ =>
      if c.isDigit then
        match parseNumber l with
        | none => none
        | some (q, r2) => some (.num q, r2)
      else none
    | [] => none

/-- The comma-separated elements of a non-empty array, up to and including
the closing bracket. -/
def parseElems : Nat → List Char → Option (List Json × List Char)
  | 0, _ => none
  | fuel + 1, l =>
    match parseVal fuel l with
    | none => none
    | some (v, r) =>
      match skipJsonWs r with
      | ',' :: r2 =>
        match parseElems fuel (skipJsonWs r2) with
        | none => none
        | some (xs, r3) => some (v :: xs, r3)
      | ']' :: r2 => some ([v], r2)
      | _ => none

/-- The comma-separated members of a non-empty object, up to and including
the closing brace. -/
def parseFields : Nat → List Char → Option (List (String × Json) × List Char)
  | 0, _ => none
  | fuel + 1, l =>
    match l with
    | '"' :: r =>
      match parseStringAux fuel [] r with
      | none => none
      | some (k, r1) =>
        match skipJsonWs r1 with
        | ':' :: r2 =>
          match parseVal fuel (skipJsonWs r2) with
          | none => none
          | some (v, r3) =>
            match skipJsonWs r3 with
            | ',' :: r4 =>
              match parseFields fuel (skipJsonWs r4) with
              | none => none
              | some (fs, r5) => some ((k, v) :: fs, r5)
            | '\x7d' :: r4 => some ([(k, v)], r4)
            | _ => none
        | _ => none
    | _ => none

end

/-- Model of `JSON.parse`: the whole text must be one JSON value, with the
surrounding whitespace ignored; anything else is a parse error (`none`). -/
def jsParse (s : String) : Option Json :=
  let l := trimList jsWs s.toList
  match parseVal (2 * l.length + 2) l with
  | some (v, []) => some v
  | _ => none

theorem jsParse_jsTrim (s : String) : jsParse (jsTrim s) = jsParse s := by
  unfold jsParse jsTrim
  rw [show (String.mk (trimList jsWs s.toList)).toList
        = trimList jsWs s.toList from rfl, trimList_idem]

/-! ## Requests to the generative model (`services/geminiService.ts`) -/

/-- One part of a `generateContent` payload: instruction text or an inline
image blob. -/
inductive Part where
  | text (t : String)
  | inlineData (mimeType : String) (data : String)
deriving DecidableEq, Repr

/-- The declared JSON response schema: a nested
object/array/string/number/boolean field tree (`Type.OBJECT` etc. of the
`@google/genai` client). -/
inductive Schema where
  | obj (props : List (String × Schema)) (required : List String)
  | arr (items : Schema)
  | str (description : Option String)
  | number
  | boolean

/-- An outbound `ai.models.generateContent` request. -/
structure GenRequest where
  model : String
  parts : List Part
  responseMimeType : String
  responseSchema : Schema

/-- A latitude/longitude pair from the geolocation API. -/
structure Coords where
  latitude : ℚ
  longitude : ℚ
deriving DecidableEq, Repr

/-- JavaScript number-to-text conversion, at the exact-rational abstraction
of JavaScript numbers used in this development. -/
def numText (q : ℚ) : String := toString q

/-- `formatManualRecord`: the user-verified record rendered as prompt
text; an empty field (falsy in JavaScript) prints as `N/A`. -/
def formatManualRecord (r : ManualAcademicRecord) : String :=
  "\n- **Academic Record (User-Verified Text)**: This is the primary source for qualitative analysis.\n  - **Awards**: "
    ++ (if r.awards = "" then "N/A" else r.awards)
    ++ "\n  - **Creative Experiential Activities**: "
    ++ (if r.creativeActivities = "" then "N/A" else r.creativeActivities)
    ++ "\n  - **Detailed Abilities & Special Notes by Subject**: "
    ++ (if r.detailedAbilities = "" then "N/A" else r.detailedAbilities)
    ++ "\n  - **Reading Activities**: "
    ++ (if r.readingActivities = "" then "N/A" else r.readingActivities)
    ++ "\n  - **Behavioral Characteristics & Comprehensive Opinion**: "
    ++ (if r.behavioralCharacteristics = "" then "N/A" else r.behavioralCharacteristics)
    ++ "\n"

/-- The `locationInfo` line of the analysis prompt. -/
def locationInfo (loc : Option Coords) : String :=
  match loc with
  | some c =>
    "The user is located at latitude " ++ numText c.latitude
      ++ " and longitude " ++ numText c.longitude ++ "."
  | none => "The user has not provided their location."

/-- `hasManualRecord`: a manual record exists and has some non-blank
field. -/
def hasManualRecord (info : StudentInfo) : Bool :=
  match info.manualAcademicRecord with
  | some r => (manualValues r).any (fun v => jsTrim v != "")
  | none => false

def imageRecordText : String :=
  "The academic record (생기부) is provided as an attached image. Please perform OCR and analyze its content."

def noRecordText : String :=
  "No academic record was provided. Please make a general analysis based on the mock exam scores and desired field."

/-- The record branches below the manual-record case: attached image,
pasted text (a non-empty string, as JavaScript truthiness requires), or no
record at all. -/
def academicRecordFallback (info : StudentInfo) : String :=
  match info.academicRecordImage with
  | some _ => imageRecordText
  | none =>
    match info.academicRecord with
    | some s =>
      if s != "" then "- **Academic Record (Pasted Text)**:\n---\n" ++ s ++ "\n---"
      else noRecordText
    | none => noRecordText

/-- The `academicRecordInfo` text of the analysis prompt. -/
def academicRecordInfo (info : StudentInfo) : String :=
  match info.manualAcademicRecord with
  | some r =>
    if (manualValues r).any (fun v => jsTrim v != "") then formatManualRecord r
    else academicRecordFallback info
  | none => academicRecordFallback info

/-- The image parts pushed while building the analysis prompt: the
academic-record image is attached only when no usable manual record
exists. -/
def recordParts (info : StudentInfo) : List Part :=
  if hasManualRecord info then []
  else
    match info.academicRecordImage with
    | some img => [.inlineData img.mimeType img.data]
    | none => []

def mockExamScoresProvided (m : MockExam) : Bool :=
  (mockValues m).any (fun s => jsTrim s != "")

def mockScoresLine (m : MockExam) : String :=
  "- Mock Exam Scores (percentile): Korean " ++ m.korean ++ ", Math " ++ m.math
    ++ ", English " ++ m.english ++ ", Inquiry1 " ++ m.inquiry1
    ++ ", Inquiry2 " ++ m.inquiry2

def mockSkipLine : String :=
  "- Mock Exam Scores: The user skipped this step. Please estimate the student\x27s academic performance for the regular decision (정시) analysis based on the provided academic record (학생 생활기록부) content."

/-- The `mockExamInfo` line of the analysis prompt. -/
def mockExamInfo (m : MockExam) : String :=
  if mockExamScoresProvided m then mockScoresLine m else mockSkipLine

/-- The `studentNameInfo` line of the analysis prompt. -/
def studentNameInfo (info : StudentInfo) : String :=
  if info.studentName != "" then
    "The student\x27s name is " ++ info.studentName ++ ". Use this exact name in the report."
  else "Anonymize the student\x27s name to \"OOO 학생\"."

/-- The analysis prompt template up to the mock-exam line. -/
def promptIntro (info : StudentInfo) : String :=
  "\n    You are an expert South Korean college admissions consultant AI named \x27입시 네비게이터\x27. Your role is to provide a detailed, data-driven analysis for a parent about their high school student\x27s university admission prospects.\n\n    **Student Data:**\n    - Grade: "
    ++ info.grade ++ "학년\n    - Desired Field of Study: " ++ info.desiredField ++ "\n    "

/-- The analysis prompt template from the task list to the end. -/
def promptTask (info : StudentInfo) : String :=
  "\n\n    **Your Task:**\n    Analyze all the provided information and generate a comprehensive report. The report must be in Korean.\n\n    1.  **Student Identification**: "
    ++ studentNameInfo info
    ++ "\n    2.  **Quantitative Analysis**:\n        - Create a grade trend chart data for 4 semesters. Estimate GPA based on the text.\n        - Analyze mock exam scores, highlighting strengths and weaknesses. If scores are not provided, estimate performance based on the academic record.\n        - Generate Z-scores for 5 key subjects based on the academic record.\n"
    ++ "    3.  **Qualitative Analysis**:\n        - Extract at least 10-15 relevant keywords from the academic record for a keyword cloud, weighted by importance for the desired field.\n        - Create a radar chart data for the 4 key competencies (학업역량, 전공적합성, 인성, 발전가능성) on a scale of 5.\n"
    ++ "    4.  **Application Strategy**:\n        - Calculate the probability of success for Early Decision (수시) vs. Regular Decision (정시).\n        - Recommend the most advantageous application type.\n"
    ++ "    5.  **University Recommendations**:\n        - Recommend 6 Early Decision (수시) options categorized as \x27상향\x27, \x27적정\x27, \x27안정\x27.\n        - Recommend 3 Regular Decision (정시) options categorized similarly.\n        - For each recommendation, provide the university, major, admission type, chance of acceptance (%), and a brief rationale.\n"
    ++ "    6.  **Local Support (LBS)**:\n        - Identify the student\x27s weakest subject.\n        - Based on the user\x27s location, recommend 3 nearby specialized academies and 2 study spaces (libraries or study cafes). If location is not available, provide general advice. Include realistic names, distances, ratings, and review counts.\n"
    ++ "\n    **CRITICAL**: The final output must be a single, valid JSON object only. Do not add any text, markdown formatting like ```json, or any explanations outside the JSON object itself.\n  "

/-- The full instruction text of the analysis request
(`getAnalysisPrompt`'s template literal). -/
def promptText (info : StudentInfo) (loc : Option Coords) : String :=
  promptIntro info ++ mockExamInfo info.mockExam ++ "\n    "
    ++ academicRecordInfo info
    ++ "\n\n    **User Location:**\n    " ++ locationInfo loc
    ++ promptTask info

/-- `getAnalysisPrompt`: the optional image part is pushed first and the
instruction text is then unshifted to the front. -/
def getAnalysisPrompt (info : StudentInfo) (loc : Option Coords) : List Part :=
  Part.text (promptText info loc) :: recordParts info

/-- The instruction text of the image-extraction request. -/
def extractionPromptText : String :=
  "\n    You are an expert OCR system specialized in South Korean academic records (학생생활기록부, Saenggibu).\n    Analyze the provided image of an academic record and extract the student\x27s name and the text content for the following key sections:\n    1.  **성명 (Student Name)**\n    2.  **수상경력 (Awards)**\n    3.  **창의적 체험활동상황 (Creative Experiential Activities)**: Include details from 자율활동, 동아리활동, 봉사활동, and 진로활동.\n    4.  **세부능력 및 특기사항 (Detailed Abilities & Special Notes by Subject)**\n    5.  **독서활동상황 (Reading Activities)**\n    6.  **행동특성 및 종합의견 (Behavioral Characteristics & Comprehensive Opinion)**\n\n    Summarize the content of each section. If a section is not found or is empty, return an empty string for that field. The student\x27s name must be extracted accurately. If the name is not found, return \"OOO\".\n\n    **CRITICAL**: The final output must be a single, valid JSON object that adheres to the provided schema. Do not add any text, markdown formatting, or explanations outside the JSON object.\n  "

/-- The response schema declared by the image-extraction request. -/
def extractionSchema : Schema :=
  .obj
    [("studentName", .str (some "학생 성명")),
     ("awards", .str (some "수상경력")),
     ("creativeActivities", .str (some "창의적 체험활동상황")),
     ("detailedAbilities", .str (some "세부능력 및 특기사항")),
     ("readingActivities", .str (some "독서활동상황")),
     ("behavioralCharacteristics", .str (some "행동특성 및 종합의견"))]
    ["studentName", "awards", "creativeActivities", "detailedAbilities",
     "readingActivities", "behavioralCharacteristics"]

/-- The schema of one university-recommendation item (the early- and
regular-decision lists declare identical item schemas). -/
def recommendationItemSchema : Schema :=
  .obj
    [("category", .str none), ("university", .str none), ("major", .str none),
     ("admissionType", .str none), ("acceptanceChance", .number),
     ("rationale", .str none)]
    ["category", "university", "major", "admissionType", "acceptanceChance",
     "rationale"]

/-- The response schema declared by the analysis request. -/
def analysisSchema : Schema :=
  .obj
    [("studentName", .str none),
     ("recommendedApplicationType", .str none),
     ("quantitativeAnalysis", .obj
        [("gpaZScore", .arr (.obj
            [("subject", .str none), ("zScore", .number)]
            ["subject", "zScore"])),
         ("gradeTrend", .arr (.obj
            [("semester", .str none), ("gpa", .number)]
            ["semester", "gpa"])),
         ("mockExamAnalysis", .arr (.obj
            [("subject", .str none), ("strength", .boolean),
             ("comment", .str none)]
            ["subject", "strength", "comment"]))]
        ["gpaZScore", "gradeTrend", "mockExamAnalysis"]),
     ("qualitativeAnalysis", .obj
        [("keywordCloud", .arr (.obj
            [("text", .str none), ("value", .number)]
            ["text", "value"])),
         ("competencyRadar", .arr (.obj
            [("subject", .str none), ("score", .number),
             ("fullMark", .number)]
            ["subject", "score", "fullMark"]))]
        ["keywordCloud", "competencyRadar"]),
     ("applicationStrategy", .obj
        [("earlyDecisionProbability", .number),
         ("regularDecisionProbability", .number)]
        ["earlyDecisionProbability", "regularDecisionProbability"]),
     ("earlyDecisionRecommendations", .arr recommendationItemSchema),
     ("regularDecisionRecommendations", .arr recommendationItemSchema),
     ("localSupport", .obj
        [("weakSubject", .str none),
         ("recommendedAcademies", .arr (.obj
            [("name", .str none), ("distance", .str none),
             ("rating", .number), ("reviewCount", .number)]
            ["name", "distance", "rating", "reviewCount"])),
         ("recommendedStudySpaces", .arr (.obj
            [("name", .str none), ("type", .str none),
             ("distance", .str none), ("rating", .number)]
            ["name", "type", "distance", "rating"]))]
        ["weakSubject", "recommendedAcademies", "recommendedStudySpaces"])]
    ["studentName", "recommendedApplicationType", "quantitativeAnalysis",
     "qualitativeAnalysis", "applicationStrategy",
     "earlyDecisionRecommendations", "regularDecisionRecommendations",
     "localSupport"]

/-- The outbound image-extraction request (`extractDataFromImage`): the
inline image part comes first, the instruction text second. -/
def extractionRequest (img : ImagePayload) : GenRequest :=
  { model := "gemini-2.5-flash"
    parts := [.inlineData img.mimeType img.data, .text extractionPromptText]
    responseMimeType := "application/json"
    responseSchema := extractionSchema }

/-- The outbound analysis request (`analyzeStudentData`). -/
def analysisRequest (info : StudentInfo) (loc : Option Coords) : GenRequest :=
  { model := "gemini-2.5-flash"
    parts := getAnalysisPrompt info loc
    responseMimeType := "application/json"
    responseSchema := analysisSchema }

/-! ## Response handling (`analyzeStudentData`) -/

/-- The outcome of one `generateContent` round trip: a thrown error, or a
response whose `text` holds the model's output. -/
inductive ModelResponse where
  | failure (message : String)
  | success (text : String)
deriving DecidableEq, Repr

def analysisFailureMessage : String :=
  "Failed to get analysis from AI. Please check the console for details."

/-- Strip `pre` from the front of `l` when it is there
(`replace(re, \x27\x27)` with a start-anchored literal regex). -/
def stripLeadingLit (pre l : List Char) : List Char :=
  if l.take pre.length = pre then l.drop pre.length else l

/-- Strip `suf` from the end of `l` when it is there
(`replace(re, \x27\x27)` with an end-anchored literal regex). -/
def stripTrailingLit (suf l : List Char) : List Char :=
  (stripLeadingLit suf.reverse l.reverse).reverse

/-- The clean-up applied to the analysis response text: drop one leading
"```json" fence line, one trailing "```" fence line, then trim. -/
def cleanJsonText (t : String) : String :=
  jsTrim (String.mk (stripTrailingLit "\n```".toList
    (stripLeadingLit "```json\n".toList t.toList)))

/-- `analyzeStudentData`'s handling of one model round trip: a thrown call
error or an unparseable response text both surface as the fixed analysis
failure message; otherwise the parsed JSON document is returned.  (The
code casts the parsed value to `AnalysisReport` without validation, so the
success value is the raw document.) -/
def analyzeStudentData (resp : ModelResponse) : Except String Json :=
  match resp with
  | .failure _ => .error analysisFailureMessage
  | .success t =>
    match jsParse (cleanJsonText t) with
    | some v => .ok v
    | none => .error analysisFailureMessage

/-! ## Application state machine (`App.tsx`, `App` component) -/

inductive AppStep where
  | WELCOME
  | ONBOARDING
  | ANALYZING
  | REPORT
  | ERROR
deriving DecidableEq, Repr

structure AppState where
  step : AppStep
  studentInfo : Option StudentInfo
  analysisReport : Option Json
  location : Option Coords
  error : Option String

/-- The state produced by `reset` (also the initial state). -/
def resetState : AppState :=
  { step := .WELCOME, studentInfo := none, analysisReport := none,
    location := none, error := none }

/-- `handleOnboardingComplete`: store the student info, enter the busy
`ANALYZING` step, make one model round trip, and settle into `REPORT` or
`ERROR`.  The single `generateContent` call is modelled by reading index 0
of the response oracle; no other index is ever consulted. -/
def handleOnboardingComplete (s : AppState) (info : StudentInfo)
    (oracle : Nat → ModelResponse) : AppState :=
  let s1 := { s with studentInfo := some info, step := .ANALYZING, error := none }
  match analyzeStudentData (oracle 0) with
  | .ok report => { s1 with analysisReport := some report, step := .REPORT }
  | .error msg =>
    { s1 with
      error := some (if msg != "" then msg else "An unknown error occurred.")
      step := .ERROR }

/-- What `renderContent` shows for a given application state.  The error
view carries the message paragraph and the state that its restart button's
`reset` handler produces. -/
inductive AppView where
  | welcome
  | onboarding
  | analyzing
  | report (doc : Json)
  | blank
  | errorView (message : Option String) (restart : AppState)

def renderContent (s : AppState) : AppView :=
  match s.step with
  | .WELCOME => .welcome
  | .ONBOARDING => .onboarding
  | .ANALYZING => .analyzing
  | .REPORT =>
    match s.analysisReport with
    | some r => .report r
    | none => .blank
  | .ERROR => .errorView s.error resetState

/-! ## Onboarding component state (`App.tsx`, `Onboarding`) -/

inductive RecordInputType where
  | image
  | manual
deriving DecidableEq, Repr

structure OnboardingState where
  step : Nat
  info : StudentInfo
  recordInputType : Option RecordInputType
  imagePreview : Option String
  isExtracting : Bool

/-- The synchronous first half of `handleFileChange`: enter the extracting
busy state, switch to the image sub-state, show the preview and store the
encoded image. -/
def handleFileChangeBusy (s : OnboardingState) (preview : String)
    (img : ImagePayload) : OnboardingState :=
  { s with
    isExtracting := true
    recordInputType := some .image
    imagePreview := some preview
    info := { s.info with academicRecordImage := some img } }

/-- The second half of `handleFileChange`, once `extractDataFromImage`
settles: on success adopt the extracted name and record and enter the
manual sub-state; on failure alert the error message and return to the
image sub-state.  The `finally` clause clears the busy flag either way.
The returned list holds the `alert` calls made. -/
def handleFileChangeSettle (s : OnboardingState)
    (outcome : Except String (String × ManualAcademicRecord)) :
    OnboardingState × List String :=
  match outcome with
  | .ok (name, record) =>
    ({ s with
        info :=
          { s.info with
            studentName := name
            manualAcademicRecord := some record }
        recordInputType := some .manual
        isExtracting := false }, [])
  | .error msg =>
    ({ s with recordInputType := some .image, isExtracting := false }, [msg])

/-- The whole `handleFileChange` reaction to a selected file: the
intermediate (busy) state, the settled state, and the alerts shown. -/
def handleFileChange (s : OnboardingState) (preview : String)
    (img : ImagePayload)
    (outcome : Except String (String × ManualAcademicRecord)) :
    OnboardingState × OnboardingState × List String :=
  let mid := handleFileChangeBusy s preview img
  let settled := handleFileChangeSettle mid outcome
  (mid, settled.1, settled.2)

/-! ## Geolocation (`App.tsx`, `handleLocationRequest`) -/

/-- What the browser geolocation API does with the request. -/
inductive GeoOutcome where
  | unsupported
  | failure
  | success (latitude longitude : ℚ)
deriving DecidableEq, Repr

/-- `handleLocationRequest`: on success store the coordinate pair, on
failure or an unsupported browser leave the stored location untouched; in
every case one local `alert` notice is shown.  The returned list holds the
alerts. -/
def handleLocationRequest (loc : Option Coords) (outcome : GeoOutcome) :
    Option Coords × List String :=
  match outcome with
  | .success lat lon =>
    (some { latitude := lat, longitude := lon },
     ["위치 정보가 성공적으로 수집되었습니다."])
  | .failure => (loc, ["위치 정보를 가져오는데 실패했습니다."])
  | .unsupported => (loc, ["이 브라우저에서는 위치 정보가 지원되지 않습니다."])

/-! ## The analysis report (`types.ts`) and its rendering
(`App.tsx`, `ReportDashboard`) -/

structure GpaZScoreItem where
  subject : String
  zScore : ℚ
deriving DecidableEq, Repr

structure GradeTrendItem where
  semester : String
  gpa : ℚ
deriving DecidableEq, Repr

structure MockExamAnalysisItem where
  subject : String
  strength : Bool
  comment : String
deriving DecidableEq, Repr

structure QuantitativeAnalysis where
  gpaZScore : List GpaZScoreItem
  gradeTrend : List GradeTrendItem
  mockExamAnalysis : List MockExamAnalysisItem
deriving DecidableEq, Repr

structure KeywordItem where
  text : String
  value : ℚ
deriving DecidableEq, Repr

structure CompetencyItem where
  subject : String
  score : ℚ
  fullMark : ℚ
deriving DecidableEq, Repr

structure QualitativeAnalysis where
  keywordCloud : List KeywordItem
  competencyRadar : List CompetencyItem
deriving DecidableEq, Repr

structure ApplicationStrategy where
  earlyDecisionProbability : ℚ
  regularDecisionProbability : ℚ
deriving DecidableEq, Repr

/-- A recommendation item.  The category is a string at runtime (the
declared union `상향 | 적정 | 안정` is erased), and the rendering handles
any other string through a default colour. -/
structure UniversityRecommendation where
  category : String
  university : String
  major : String
  admissionType : String
  acceptanceChance : ℚ
  rationale : String
deriving DecidableEq, Repr

structure AcademyItem where
  name : String
  distance : String
  rating : ℚ
  reviewCount : ℚ
deriving DecidableEq, Repr

structure StudySpaceItem where
  name : String
  type : String
  distance : String
  rating : ℚ
deriving DecidableEq, Repr

structure LocalSupport where
  weakSubject : String
  recommendedAcademies : List AcademyItem
  recommendedStudySpaces : List StudySpaceItem
deriving DecidableEq, Repr

structure AnalysisReport where
  studentName : String
  recommendedApplicationType : String
  quantitativeAnalysis : QuantitativeAnalysis
  qualitativeAnalysis : QualitativeAnalysis
  applicationStrategy : ApplicationStrategy
  earlyDecisionRecommendations : List UniversityRecommendation
  regularDecisionRecommendations : List UniversityRecommendation
  localSupport : LocalSupport
deriving DecidableEq, Repr

/-- `Math.round` at the exact-rational abstraction: round half towards
positive infinity. -/
def jsRound (q : ℚ) : ℤ := ⌊q + 1 / 2⌋

/-- `toFixed(1)` at the exact-rational abstraction: the displayed value in
tenths. -/
def toFixedTenths (q : ℚ) : ℤ := jsRound (q * 10)

def getCategoryColor (category : String) : String :=
  if category = "상향" then "bg-red-100 text-red-800 border-red-500"
  else if category = "적정" then "bg-yellow-100 text-yellow-800 border-yellow-500"
  else if category = "안정" then "bg-green-100 text-green-800 border-green-500"
  else "bg-gray-100 text-gray-800 border-gray-500"

/-- The data shown by one recommendation card: the category badge, the
`university - major` heading, the admission type, the acceptance chance
(displayed with a percent sign) and the rationale paragraph. -/
structure RenderedCard where
  colorClass : String
  badge : String
  title : String
  admissionType : String
  acceptanceChance : ℚ
  rationale : String
deriving DecidableEq, Repr

def renderRecommendationCard (rec : UniversityRecommendation) : RenderedCard :=
  { colorClass := getCategoryColor rec.category
    badge := rec.category
    title := rec.university ++ " - " ++ rec.major
    admissionType := rec.admissionType
    acceptanceChance := rec.acceptanceChance
    rationale := rec.rationale }

/-- The strategy tab: the early-decision card column and the
regular-decision card column. -/
structure RenderedStrategy where
  earlyCards : List RenderedCard
  regularCards : List RenderedCard
deriving DecidableEq, Repr

def renderStrategy (r : AnalysisReport) : RenderedStrategy :=
  { earlyCards := r.earlyDecisionRecommendations.map renderRecommendationCard
    regularCards := r.regularDecisionRecommendations.map renderRecommendationCard }

/-- The dashboard tab: the summary line (empty strings fall back to the
placeholder texts), the pie data, the grade-trend and radar chart inputs,
and the keyword cloud with each word's font size and opacity. -/
structure RenderedDashboard where
  summaryName : String
  summaryType : String
  pieData : List (String × ℚ)
  gradeTrend : List GradeTrendItem
  radar : List CompetencyItem
  radarName : String
  keywords : List (String × ℚ × ℚ)
deriving DecidableEq, Repr

def renderDashboard (r : AnalysisReport) : RenderedDashboard :=
  { summaryName := if r.studentName = "" then "학생" else r.studentName
    summaryType :=
      if r.recommendedApplicationType = "" then "분석 결과"
      else r.recommendedApplicationType
    pieData :=
      [("수시", r.applicationStrategy.earlyDecisionProbability),
       ("정시", r.applicationStrategy.regularDecisionProbability)]
    gradeTrend := r.quantitativeAnalysis.gradeTrend
    radar := r.qualitativeAnalysis.competencyRadar
    radarName := if r.studentName = "" then "학생" else r.studentName
    keywords :=
      r.qualitativeAnalysis.keywordCloud.map
        (fun w => (w.text, 10 + w.value * (3 / 2), 3 / 5 + w.value * (1 / 25))) }

/-- One academy card of the local-support tab: five star icons (filled
below the rounded rating), the one-decimal rating text and the review
count. -/
structure RenderedAcademy where
  name : String
  distance : String
  starsFilled : List Bool
  ratingShown : ℤ
  reviewCount : ℚ
deriving DecidableEq, Repr

def renderAcademy (a : AcademyItem) : RenderedAcademy :=
  { name := a.name
    distance := a.distance
    starsFilled := (List.range 5).map (fun idx => decide ((idx : ℤ) < jsRound a.rating))
    ratingShown := toFixedTenths a.rating
    reviewCount := a.reviewCount }

/-- One study-space card of the local-support tab. -/
structure RenderedStudySpace where
  name : String
  typeLabel : String
  typeBadgeClass : String
  distance : String
  starsFilled : List Bool
  ratingShown : ℤ
deriving DecidableEq, Repr

def renderStudySpace (s : StudySpaceItem) : RenderedStudySpace :=
  { name := s.name
    typeLabel := if s.type = "Library" then "도서관" else "스터디 카페"
    typeBadgeClass :=
      if s.type = "Library" then "bg-indigo-100 text-indigo-800"
      else "bg-teal-100 text-teal-800"
    distance := s.distance
    starsFilled := (List.range 5).map (fun idx => decide ((idx : ℤ) < jsRound s.rating))
    ratingShown := toFixedTenths s.rating }

/-- The local-support tab: the headline (raw student name and weak
subject) and the two card columns. -/
structure RenderedLocalSupport where
  headlineName : String
  weakSubject : String
  academies : List RenderedAcademy
  studySpaces : List RenderedStudySpace
deriving DecidableEq, Repr

def renderLocalSupport (r : AnalysisReport) : RenderedLocalSupport :=
  { headlineName := r.studentName
    weakSubject := r.localSupport.weakSubject
    academies := r.localSupport.recommendedAcademies.map renderAcademy
    studySpaces := r.localSupport.recommendedStudySpaces.map renderStudySpace }

/-- Everything `ReportDashboard` can show for a report: the content of all
three tabs. -/
structure RenderedReport where
  dashboard : RenderedDashboard
  strategy : RenderedStrategy
  localSupport : RenderedLocalSupport
deriving DecidableEq, Repr

def renderReportTabs (r : AnalysisReport) : RenderedReport :=
  { dashboard := renderDashboard r
    strategy := renderStrategy r
    localSupport := renderLocalSupport r }

/-! ## Text containment -/

/-- `sub` occurs contiguously inside `s`. -/
def textHas (s sub : String) : Prop :=
  ∃ a b : List Char, s.toList = a ++ sub.toList ++ b

theorem textHas_refl (s : String) : textHas s s := ⟨[], [], by simp⟩

theorem textHas_append_right (x y sub : String) (h : textHas x sub) :
    textHas (x ++ y) sub := by
  obtain ⟨a, b, hx⟩ := h
  have hx2 : x.data = a ++ sub.data ++ b := hx
  exact ⟨a, b ++ y.toList, by simp [hx2]⟩

theorem textHas_append_left (x y sub : String) (h : textHas y sub) :
    textHas (x ++ y) sub := by
  obtain ⟨a, b, hy⟩ := h
  have hy2 : y.data = a ++ sub.data ++ b := hy
  exact ⟨x.toList ++ a, b, by simp [hy2]⟩

/-- Executable containment check, for closed instances. -/
def textHasB (s sub : String) : Bool :=
  (List.range (s.toList.length + 1)).any fun i =>
    decide ((s.toList.drop i).take sub.toList.length = sub.toList)

theorem textHas_of_textHasB (s sub : String) (h : textHasB s sub = true) :
    textHas s sub := by
  unfold textHasB at h
  simp only [List.any_eq_true, List.mem_range, decide_eq_true_eq] at h
  obtain ⟨i, _, heq⟩ := h
  refine ⟨s.toList.take i, (s.toList.drop i).drop sub.toList.length, ?_⟩
  conv_lhs => rw [← List.take_append_drop i s.toList]
  rw [List.append_assoc]
  congr 1
  conv_lhs => rw [← List.take_append_drop sub.toList.length (s.toList.drop i)]
  rw [heq]

/-! ## Sample inputs used when instantiating theorems -/

def sampleMockBlank : MockExam := ⟨"", "", "", "", ""⟩

def sampleMockFilled : MockExam := ⟨"92", "88", "1", "95", "90"⟩

def sampleManualFilled : ManualAcademicRecord :=
  ⟨"교내 수학경시 금상", "", "", "", ""⟩

def sampleInfoBare : StudentInfo :=
  { grade := "2", desiredField := "컴퓨터공학", studentName := ""
    academicRecord := none, academicRecordImage := none
    manualAcademicRecord := none, mockExam := sampleMockBlank }

def sampleInfoFilled : StudentInfo :=
  { grade := "3", desiredField := "의예과", studentName := "김하늘"
    academicRecord := none
    academicRecordImage := some ⟨"image/png", "QUJD"⟩
    manualAcademicRecord := some sampleManualFilled
    mockExam := sampleMockFilled }

/-! ## Claim C1 -/

/-- A form state whose step-1 fields are both non-empty strings while the
desired field is all whitespace. -/
def stepOneBlankDesired : StudentInfo :=
  { grade := "1", desiredField := " ", studentName := ""
    academicRecord := none, academicRecordImage := none
    manualAcademicRecord := none, mockExam := sampleMockBlank }

/-- C1, counterexample: with grade `"1"` and desired field `" "`, every
required step-1 field is a non-empty string, yet the completion predicate
reports step 1 incomplete — the code checks emptiness only after trimming
whitespace. -/
theorem claim_C1_counterexample :
    stepOneBlankDesired.grade ≠ "" ∧ stepOneBlankDesired.desiredField ≠ ""
      ∧ isStepComplete 1 stepOneBlankDesired = false := by
  refine ⟨by decide, by decide, by decide⟩

/-- C1 (amended): step 1 is complete iff the grade is a non-empty string
and the desired field is non-empty after trimming whitespace; step 2 is
complete iff a manual record exists and some field is non-empty after
trimming; step 3 is complete iff every mock-exam score is non-empty after
trimming; any other step number reports incomplete. -/
theorem claim_C1_amended (info : StudentInfo) :
    (isStepComplete 1 info = true ↔
      (info.grade ≠ "" ∧ jsTrim info.desiredField ≠ ""))
    ∧ (isStepComplete 2 info = true ↔
      ∃ r, info.manualAcademicRecord = some r
        ∧ ∃ v ∈ manualValues r, jsTrim v ≠ "")
    ∧ (isStepComplete 3 info = true ↔
      ∀ v ∈ mockValues info.mockExam, jsTrim v ≠ "")
    ∧ ∀ n : Nat, n = 1 ∨ n = 2 ∨ n = 3 ∨ isStepComplete n info = false := by
  refine ⟨?_, ?_, ?_, ?_⟩
  · simp [isStepComplete]
  · cases h : info.manualAcademicRecord with
    | none => simp [isStepComplete, h]
    | some r => simp [isStepComplete, h]
  · simp [isStepComplete]
  · intro n
    match n with
    | 0 => exact Or.inr (Or.inr (Or.inr rfl))
    | 1 => exact Or.inl rfl
    | 2 => exact Or.inr (Or.inl rfl)
    | 3 => exact Or.inr (Or.inr (Or.inl rfl))
    | n + 4 => exact Or.inr (Or.inr (Or.inr rfl))

/-! ## Claim C2 -/

/-- A schema-conforming report with every list empty. -/
def blankReport : AnalysisReport :=
  { studentName := "", recommendedApplicationType := ""
    quantitativeAnalysis := ⟨[], [], []⟩
    qualitativeAnalysis := ⟨[], []⟩
    applicationStrategy := ⟨0, 0⟩
    earlyDecisionRecommendations := [], regularDecisionRecommendations := []
    localSupport := ⟨"", [], []⟩ }

/-- `blankReport` with a different per-subject z-score list. -/
def blankReportVariant : AnalysisReport :=
  { blankReport with quantitativeAnalysis := ⟨[⟨"수학", 1⟩], [], []⟩ }

/-- C2, counterexample: two well-formed reports that differ in the
quantitative analysis's `gpaZScore` field render identically across all
three tabs, so the rendering does not reproduce every field of the
response (`gpaZScore` and `mockExamAnalysis` are never rendered). -/
theorem claim_C2_counterexample :
    renderReportTabs blankReport = renderReportTabs blankReportVariant
      ∧ blankReport ≠ blankReportVariant
      ∧ blankReport.quantitativeAnalysis.gpaZScore
          ≠ blankReportVariant.quantitativeAnalysis.gpaZScore := by
  refine ⟨rfl, by decide, by decide⟩

/-- C2 (amended): the rendered strategy list reproduces each
recommendation item's category, acceptance chance, rationale, admission
type and university/major heading exactly as they appear in the response,
and the local-support view reproduces the weak subject and each
suggestion's name and distance; but the response's `gpaZScore` and
`mockExamAnalysis` fields are not rendered — changing them leaves all
three rendered tabs unchanged. -/
theorem claim_C2_amended :
    (∀ rec : UniversityRecommendation,
      (renderRecommendationCard rec).badge = rec.category
      ∧ (renderRecommendationCard rec).acceptanceChance = rec.acceptanceChance
      ∧ (renderRecommendationCard rec).rationale = rec.rationale
      ∧ (renderRecommendationCard rec).admissionType = rec.admissionType
      ∧ (renderRecommendationCard rec).title = rec.university ++ " - " ++ rec.major)
    ∧ (∀ r : AnalysisReport,
      (renderStrategy r).earlyCards
        = r.earlyDecisionRecommendations.map renderRecommendationCard
      ∧ (renderStrategy r).regularCards
        = r.regularDecisionRecommendations.map renderRecommendationCard
      ∧ (renderLocalSupport r).weakSubject = r.localSupport.weakSubject
      ∧ (renderLocalSupport r).academies.map RenderedAcademy.name
        = r.localSupport.recommendedAcademies.map AcademyItem.name
      ∧ (renderLocalSupport r).academies.map RenderedAcademy.distance
        = r.localSupport.recommendedAcademies.map AcademyItem.distance
      ∧ (renderLocalSupport r).studySpaces.map RenderedStudySpace.name
        = r.localSupport.recommendedStudySpaces.map StudySpaceItem.name
      ∧ (renderLocalSupport r).studySpaces.map RenderedStudySpace.distance
        = r.localSupport.recommendedStudySpaces.map StudySpaceItem.distance)
    ∧ ∀ (r : AnalysisReport) (g : List GpaZScoreItem)
        (m : List MockExamAnalysisItem),
        renderReportTabs
          { r with quantitativeAnalysis :=
              { r.quantitativeAnalysis with gpaZScore := g, mockExamAnalysis := m } }
          = renderReportTabs r := by
  refine ⟨fun rec => ⟨rfl, rfl, rfl, rfl, rfl⟩, fun r => ?_, fun r g m => rfl⟩
  refine ⟨rfl, rfl, rfl, ?_, ?_, ?_, ?_⟩ <;>
    simp [renderLocalSupport, renderAcademy, renderStudySpace, List.map_map,
      Function.comp]

theorem data_append (s t : String) : (s ++ t).data = s.data ++ t.data := rfl

theorem toList_eq_data (s : String) : s.toList = s.data := rfl

/-! ## Claim C3 -/

theorem mockExamInfo_of_blank (m : MockExam)
    (h : ∀ v ∈ mockValues m, jsTrim v = "") :
    mockExamInfo m = mockSkipLine := by
  have hneg : ¬(mockExamScoresProvided m = true) := by
    simp only [mockExamScoresProvided, List.any_eq_true, bne_iff_ne, ne_eq]
    rintro ⟨v, hv, hne⟩
    exact hne (h v hv)
  unfold mockExamInfo
  rw [if_neg hneg]

theorem mockExamInfo_of_scored (m : MockExam)
    (h : ∃ v ∈ mockValues m, jsTrim v ≠ "") :
    mockExamInfo m = mockScoresLine m := by
  have hpos : mockExamScoresProvided m = true := by
    simp only [mockExamScoresProvided, List.any_eq_true, bne_iff_ne, ne_eq]
    exact h
  unfold mockExamInfo
  rw [if_pos hpos]

/-- C3: when all five mock-exam scores are blank after trimming, the
analysis request text contains the skip line, which instructs the model to
estimate the student's academic performance from the academic record; when
some score is non-blank, the request text contains the line listing all
five scores. -/
theorem claim_C3 (info : StudentInfo) (loc : Option Coords) :
    ((∀ v ∈ mockValues info.mockExam, jsTrim v = "") →
      textHas (promptText info loc) mockSkipLine
      ∧ textHas mockSkipLine "estimate the student\x27s academic performance"
      ∧ textHas mockSkipLine "academic record")
    ∧ ((∃ v ∈ mockValues info.mockExam, jsTrim v ≠ "") →
      textHas (promptText info loc) (mockScoresLine info.mockExam)) := by
  constructor
  · intro h
    refine ⟨?_, ?_, ?_⟩
    · unfold promptText
      rw [mockExamInfo_of_blank info.mockExam h]
      apply textHas_append_right
      apply textHas_append_right
      apply textHas_append_right
      apply textHas_append_right
      apply textHas_append_right
      apply textHas_append_left
      exact textHas_refl _
    · exact textHas_of_textHasB _ _ (by decide)
    · exact textHas_of_textHasB _ _ (by decide)
  · intro h
    unfold promptText
    rw [mockExamInfo_of_scored info.mockExam h]
    apply textHas_append_right
    apply textHas_append_right
    apply textHas_append_right
    apply textHas_append_right
    apply textHas_append_right
    apply textHas_append_left
    exact textHas_refl _

/-- C3, witness: the blank-score branch at a student with no scores and
the listing branch at a student with five scores. -/
theorem claim_C3_witness :
    (textHas (promptText sampleInfoBare none) mockSkipLine
      ∧ textHas mockSkipLine "estimate the student\x27s academic performance"
      ∧ textHas mockSkipLine "academic record")
    ∧ textHas (promptText sampleInfoFilled none)
        (mockScoresLine sampleInfoFilled.mockExam) :=
  ⟨(claim_C3 sampleInfoBare none).1 (by decide),
   (claim_C3 sampleInfoFilled none).2 ⟨"92", by decide, by decide⟩⟩

/-! ## Claim C4 -/

/-- C4: building the analysis request is total in the location; with no
collected location the prompt states that the user has not provided a
location and the task list asks for general advice when location is
unavailable, and with a location the prompt includes its latitude and
longitude. -/
theorem claim_C4 (info : StudentInfo) (loc : Option Coords) :
    (loc = none →
      textHas (promptText info loc) "The user has not provided their location."
      ∧ textHas (promptText info loc)
          "If location is not available, provide general advice.")
    ∧ ∀ c : Coords, loc = some c →
      textHas (promptText info loc) ("latitude " ++ numText c.latitude)
      ∧ textHas (promptText info loc) ("longitude " ++ numText c.longitude) := by
  constructor
  · rintro rfl
    constructor
    · unfold promptText
      apply textHas_append_right
      apply textHas_append_left
      exact textHas_refl _
    · unfold promptText
      apply textHas_append_left
      unfold promptTask
      apply textHas_append_right
      apply textHas_append_left
      refine ⟨"    6.  **Local Support (LBS)**:\n        - Identify the student\x27s weakest subject.\n        - Based on the user\x27s location, recommend 3 nearby specialized academies and 2 study spaces (libraries or study cafes). ".toList, " Include realistic names, distances, ratings, and review counts.\n".toList, ?_⟩
      decide
  · rintro c rfl
    constructor
    · unfold promptText
      apply textHas_append_right
      apply textHas_append_left
      refine ⟨"The user is located at ".toList,
        (" and longitude " ++ numText c.longitude ++ ".").toList, ?_⟩
      show (locationInfo (some c)).data = _
      simp [locationInfo, toList_eq_data, data_append, List.append_assoc]
    · unfold promptText
      apply textHas_append_right
      apply textHas_append_left
      refine ⟨("The user is located at latitude " ++ numText c.latitude
          ++ " and ").toList, ".".toList, ?_⟩
      show (locationInfo (some c)).data = _
      simp [locationInfo, toList_eq_data, data_append, List.append_assoc]

/-- C4, witness: the degraded no-location prompt and the geolocated
prompt at latitude 75/2 and longitude 127. -/
theorem claim_C4_witness :
    (textHas (promptText sampleInfoBare none)
        "The user has not provided their location."
      ∧ textHas (promptText sampleInfoBare none)
          "If location is not available, provide general advice.")
    ∧ textHas (promptText sampleInfoBare (some ⟨75 / 2, 127⟩))
        ("latitude " ++ numText (75 / 2 : ℚ))
      ∧ textHas (promptText sampleInfoBare (some ⟨75 / 2, 127⟩))
        ("longitude " ++ numText (127 : ℚ)) :=
  ⟨(claim_C4 sampleInfoBare none).1 rfl,
   (claim_C4 sampleInfoBare (some ⟨75 / 2, 127⟩)).2 ⟨75 / 2, 127⟩ rfl⟩

/-! ## Claim C5 -/

/-- C5: when the analysis round trip throws or its response text fails to
parse, the application settles in the terminal `ERROR` step with the fixed
analysis-failure message, the rendered error view offers a restart action
that returns to the `WELCOME` state, and the outcome depends only on the
single model response consumed — no retry is performed. -/
theorem claim_C5 (s : AppState) (info : StudentInfo)
    (oracle : Nat → ModelResponse)
    (h : (∃ e, oracle 0 = .failure e)
      ∨ ∃ t, oracle 0 = .success t ∧ jsParse (cleanJsonText t) = none) :
    (handleOnboardingComplete s info oracle).step = .ERROR
    ∧ (handleOnboardingComplete s info oracle).error = some analysisFailureMessage
    ∧ renderContent (handleOnboardingComplete s info oracle)
        = .errorView (some analysisFailureMessage) resetState
    ∧ resetState.step = .WELCOME
    ∧ ∀ oracle2 : Nat → ModelResponse, oracle2 0 = oracle 0 →
        handleOnboardingComplete s info oracle2
          = handleOnboardingComplete s info oracle := by
  have herr : analyzeStudentData (oracle 0) = .error analysisFailureMessage := by
    rcases h with ⟨e, he⟩ | ⟨t, ht, hp⟩
    · rw [he]
      rfl
    · rw [ht]
      simp only [analyzeStudentData, hp]
  have hne : (analysisFailureMessage != "") = true := by decide
  refine ⟨?_, ?_, ?_, rfl, ?_⟩
  · simp [handleOnboardingComplete, herr]
  · simp [handleOnboardingComplete, herr, hne]
  · simp [handleOnboardingComplete, herr, hne, renderContent]
  · intro oracle2 h2
    unfold handleOnboardingComplete
    rw [h2]

/-- C5, witness: a response text that is not JSON drives the application
into the error state. -/
theorem claim_C5_witness :
    (handleOnboardingComplete resetState sampleInfoBare
        (fun _ => .success "not json")).step = .ERROR
    ∧ (handleOnboardingComplete resetState sampleInfoBare
        (fun _ => .success "not json")).error = some analysisFailureMessage
    ∧ renderContent (handleOnboardingComplete resetState sampleInfoBare
        (fun _ => .success "not json"))
        = .errorView (some analysisFailureMessage) resetState
    ∧ resetState.step = .WELCOME
    ∧ ∀ oracle2 : Nat → ModelResponse,
        oracle2 0 = (fun _ => ModelResponse.success "not json") 0 →
        handleOnboardingComplete resetState sampleInfoBare oracle2
          = handleOnboardingComplete resetState sampleInfoBare
              (fun _ => .success "not json") :=
  claim_C5 resetState sampleInfoBare (fun _ => .success "not json")
    (Or.inr ⟨"not json", rfl, rfl⟩)

/-! ## Claim C6 -/

/-- C6: uploading an image puts the onboarding flow into the extracting
busy state in the image sub-state; a successful extraction settles into the
manual sub-state with the manual record and student name pre-populated
from the extracted values and no alert; a failed extraction settles back
into the image sub-state with one visible alert; the busy flag is cleared
in both outcomes. -/
theorem claim_C6 (s : OnboardingState) (preview : String) (img : ImagePayload)
    (outcome : Except String (String × ManualAcademicRecord)) :
    (handleFileChange s preview img outcome).1.isExtracting = true
    ∧ (handleFileChange s preview img outcome).1.recordInputType = some .image
    ∧ (handleFileChange s preview img outcome).1.info.academicRecordImage = some img
    ∧ (∀ name record, outcome = .ok (name, record) →
        (handleFileChange s preview img outcome).2.1.recordInputType = some .manual
        ∧ (handleFileChange s preview img outcome).2.1.info.manualAcademicRecord
            = some record
        ∧ (handleFileChange s preview img outcome).2.1.info.studentName = name
        ∧ (handleFileChange s preview img outcome).2.1.isExtracting = false
        ∧ (handleFileChange s preview img outcome).2.2 = [])
    ∧ ∀ msg, outcome = .error msg →
        (handleFileChange s preview img outcome).2.1.recordInputType = some .image
        ∧ (handleFileChange s preview img outcome).2.1.isExtracting = false
        ∧ (handleFileChange s preview img outcome).2.2 = [msg] := by
  refine ⟨rfl, rfl, rfl, ?_, ?_⟩
  · rintro name record rfl
    exact ⟨rfl, rfl, rfl, rfl, rfl⟩
  · rintro msg rfl
    exact ⟨rfl, rfl, rfl⟩

/-- C6, witness: one successful extraction and one failed extraction from
the empty onboarding state. -/
theorem claim_C6_witness :
    ((handleFileChange ⟨2, sampleInfoBare, none, none, false⟩ "blob:1"
        ⟨"image/png", "QUJD"⟩ (.ok ("김하늘", sampleManualFilled))).2.1.recordInputType
          = some .manual
      ∧ (handleFileChange ⟨2, sampleInfoBare, none, none, false⟩ "blob:1"
          ⟨"image/png", "QUJD"⟩
          (.ok ("김하늘", sampleManualFilled))).2.1.info.manualAcademicRecord
          = some sampleManualFilled
      ∧ (handleFileChange ⟨2, sampleInfoBare, none, none, false⟩ "blob:1"
          ⟨"image/png", "QUJD"⟩
          (.ok ("김하늘", sampleManualFilled))).2.1.info.studentName = "김하늘"
      ∧ (handleFileChange ⟨2, sampleInfoBare, none, none, false⟩ "blob:1"
          ⟨"image/png", "QUJD"⟩
          (.ok ("김하늘", sampleManualFilled))).2.1.isExtracting = false
      ∧ (handleFileChange ⟨2, sampleInfoBare, none, none, false⟩ "blob:1"
          ⟨"image/png", "QUJD"⟩ (.ok ("김하늘", sampleManualFilled))).2.2 = [])
    ∧ (handleFileChange ⟨2, sampleInfoBare, none, none, false⟩ "blob:1"
        ⟨"image/png", "QUJD"⟩ (.error "추출 실패")).2.1.recordInputType = some .image
      ∧ (handleFileChange ⟨2, sampleInfoBare, none, none, false⟩ "blob:1"
          ⟨"image/png", "QUJD"⟩ (.error "추출 실패")).2.1.isExtracting = false
      ∧ (handleFileChange ⟨2, sampleInfoBare, none, none, false⟩ "blob:1"
          ⟨"image/png", "QUJD"⟩ (.error "추출 실패")).2.2 = ["추출 실패"] :=
  ⟨(claim_C6 ⟨2, sampleInfoBare, none, none, false⟩ "blob:1" ⟨"image/png", "QUJD"⟩
      (.ok ("김하늘", sampleManualFilled))).2.2.2.1 "김하늘" sampleManualFilled rfl,
   (claim_C6 ⟨2, sampleInfoBare, none, none, false⟩ "blob:1" ⟨"image/png", "QUJD"⟩
      (.error "추출 실패")).2.2.2.2 "추출 실패" rfl⟩

/-! ## Claim C7 -/

/-- C7, counterexample: the image-extraction request's part list is not of
the claimed shape "instruction text first, then optionally one inline
image" — its inline image part precedes the instruction text. -/
theorem claim_C7_counterexample :
    ¬((∃ t, (extractionRequest ⟨"image/png", "QUJD"⟩).parts = [Part.text t])
      ∨ ∃ t m d, (extractionRequest ⟨"image/png", "QUJD"⟩).parts
          = [Part.text t, Part.inlineData m d]) := by
  rintro (⟨t, h⟩ | ⟨t, m, d, h⟩) <;> simp [extractionRequest] at h

/-- C7 (amended): both outbound requests carry a declared JSON response
schema and a JSON response MIME type; the analysis request's part list is
the instruction text followed by at most one inline image blob, while the
image-extraction request's part list is the inline image blob followed by
the instruction text. -/
theorem claim_C7_amended :
    (∀ (info : StudentInfo) (loc : Option Coords),
      ((analysisRequest info loc).parts = [Part.text (promptText info loc)]
        ∨ ∃ img, info.academicRecordImage = some img
            ∧ (analysisRequest info loc).parts
              = [Part.text (promptText info loc),
                 Part.inlineData img.mimeType img.data])
      ∧ (analysisRequest info loc).responseMimeType = "application/json"
      ∧ (analysisRequest info loc).responseSchema = analysisSchema
      ∧ (analysisRequest info loc).model = "gemini-2.5-flash")
    ∧ ∀ img : ImagePayload,
      (extractionRequest img).parts
          = [Part.inlineData img.mimeType img.data, Part.text extractionPromptText]
      ∧ (extractionRequest img).responseMimeType = "application/json"
      ∧ (extractionRequest img).responseSchema = extractionSchema
      ∧ (extractionRequest img).model = "gemini-2.5-flash" := by
  refine ⟨fun info loc => ⟨?_, rfl, rfl, rfl⟩, fun img => ⟨rfl, rfl, rfl, rfl⟩⟩
  by_cases hm : hasManualRecord info = true
  · left
    simp [analysisRequest, getAnalysisPrompt, recordParts, hm]
  · rw [Bool.not_eq_true] at hm
    cases himg : info.academicRecordImage with
    | none =>
      left
      simp [analysisRequest, getAnalysisPrompt, recordParts, hm, himg]
    | some img =>
      right
      exact ⟨img, rfl, by simp [analysisRequest, getAnalysisPrompt, recordParts, hm, himg]⟩

/-! ## Claim C8 -/

/-- C8: geolocation denial or unavailability is surfaced as exactly one
local alert, the stored location stays as it was (absent when it was
absent), and the analysis request built after the failure is the same
no-location request; a successful request stores the single
latitude/longitude pair (again with one alert). -/
theorem claim_C8 (loc : Option Coords) (outcome : GeoOutcome) :
    ((outcome = .unsupported ∨ outcome = .failure) →
      (handleLocationRequest none outcome).1 = none
      ∧ (handleLocationRequest loc outcome).1 = loc
      ∧ (handleLocationRequest loc outcome).2.length = 1
      ∧ ∀ info : StudentInfo,
          analysisRequest info (handleLocationRequest none outcome).1
            = analysisRequest info none)
    ∧ ∀ lat lon : ℚ, outcome = .success lat lon →
        (handleLocationRequest loc outcome).1
            = some { latitude := lat, longitude := lon }
        ∧ (handleLocationRequest loc outcome).2.length = 1 := by
  constructor
  · rintro (rfl | rfl) <;> exact ⟨rfl, rfl, rfl, fun _ => rfl⟩
  · rintro lat lon rfl
    exact ⟨rfl, rfl⟩

/-- C8, witness: a denied request with a previously stored location and
with no stored location, and a successful request at latitude 1,
longitude 2. -/
theorem claim_C8_witness :
    ((handleLocationRequest none .failure).1 = none
      ∧ (handleLocationRequest (some ⟨1, 2⟩) .failure).1 = some ⟨1, 2⟩
      ∧ (handleLocationRequest (some ⟨1, 2⟩) .failure).2.length = 1
      ∧ ∀ info : StudentInfo,
          analysisRequest info (handleLocationRequest none .failure).1
            = analysisRequest info none)
    ∧ (handleLocationRequest none (.success 1 2)).1
          = some { latitude := 1, longitude := 2 }
      ∧ (handleLocationRequest none (.success 1 2)).2.length = 1 :=
  ⟨(claim_C8 (some ⟨1, 2⟩) .failure).1 (Or.inr rfl),
   (claim_C8 none (.success 1 2)).2 1 2 rfl⟩

/-! ## Claim C9 -/

/-- C9: the analysis request attaches the inline academic-record image
part iff the manual record is absent or all-blank after trimming and an
image is present; a manual record with any non-blank field makes the
user-verified text the sole record source, with no image part; and when
neither manual record, image nor pasted text exists, the prompt states
that no academic record was provided. -/
theorem claim_C9 (info : StudentInfo) (loc : Option Coords) :
    ((∃ m d, Part.inlineData m d ∈ getAnalysisPrompt info loc) ↔
      ((info.manualAcademicRecord = none
          ∨ ∃ r, info.manualAcademicRecord = some r
              ∧ ∀ v ∈ manualValues r, jsTrim v = "")
        ∧ info.academicRecordImage.isSome = true))
    ∧ (∀ r, info.manualAcademicRecord = some r →
        (∃ v ∈ manualValues r, jsTrim v ≠ "") →
        academicRecordInfo info = formatManualRecord r
        ∧ getAnalysisPrompt info loc = [Part.text (promptText info loc)])
    ∧ (info.manualAcademicRecord = none → info.academicRecordImage = none →
        info.academicRecord = none →
        academicRecordInfo info = noRecordText
        ∧ textHas (promptText info loc) noRecordText) := by
  refine ⟨?_, ?_, ?_⟩
  · cases hrec : info.manualAcademicRecord with
    | none =>
      cases himg : info.academicRecordImage with
      | none => simp [getAnalysisPrompt, recordParts, hasManualRecord, hrec, himg]
      | some img => simp [getAnalysisPrompt, recordParts, hasManualRecord, hrec, himg]
    | some r =>
      by_cases hblank : (manualValues r).any (fun v => jsTrim v != "") = true
      · constructor
        · rintro ⟨m, d, hmem⟩
          simp [getAnalysisPrompt, recordParts, hasManualRecord, hrec, hblank] at hmem
        · rintro ⟨hor, -⟩
          exfalso
          rcases hor with hnone | ⟨r2, hr2, hall⟩
          · exact Option.noConfusion hnone
          · injection hr2 with hr2
            subst hr2
            simp only [List.any_eq_true, bne_iff_ne, ne_eq] at hblank
            obtain ⟨v, hv, hne⟩ := hblank
            exact hne (hall v hv)
      · rw [Bool.not_eq_true] at hblank
        cases himg : info.academicRecordImage with
        | none =>
          simp [getAnalysisPrompt, recordParts, hasManualRecord, hrec, himg, hblank]
        | some img =>
          simp only [List.any_eq_false, bne_iff_ne, ne_eq, not_not] at hblank
          simp [getAnalysisPrompt, recordParts, hasManualRecord, hrec, himg,
            List.any_eq_false, hblank]
  · rintro r hr ⟨v, hv, hne⟩
    have hany : (manualValues r).any (fun v => jsTrim v != "") = true := by
      simp only [List.any_eq_true, bne_iff_ne, ne_eq]
      exact ⟨v, hv, hne⟩
    have hman : hasManualRecord info = true := by
      simp [hasManualRecord, hr, hany]
    constructor
    · simp [academicRecordInfo, hr, hany]
    · simp [getAnalysisPrompt, recordParts, hman]
  · intro h1 h2 h3
    have hacad : academicRecordInfo info = noRecordText := by
      simp [academicRecordInfo, academicRecordFallback, h1, h2, h3]
    refine ⟨hacad, ?_⟩
    unfold promptText
    rw [hacad]
    apply textHas_append_right
    apply textHas_append_right
    apply textHas_append_right
    apply textHas_append_left
    exact textHas_refl _

/-- C9, witness: the manual-record branch at a student with a non-blank
manual field, and the no-record branch at a student with no record
sources. -/
theorem claim_C9_witness :
    (academicRecordInfo sampleInfoFilled = formatManualRecord sampleManualFilled
      ∧ getAnalysisPrompt sampleInfoFilled none
          = [Part.text (promptText sampleInfoFilled none)])
    ∧ academicRecordInfo sampleInfoBare = noRecordText
      ∧ textHas (promptText sampleInfoBare none) noRecordText :=
  ⟨(claim_C9 sampleInfoFilled none).2.1 sampleManualFilled rfl
      ⟨"교내 수학경시 금상", by decide, by decide⟩,
   (claim_C9 sampleInfoBare none).2.2 rfl rfl rfl⟩

/-! ## Claim C10 -/

theorem stripLeadingLit_append (pre rest : List Char) :
    stripLeadingLit pre (pre ++ rest) = rest := by
  unfold stripLeadingLit
  rw [if_pos (List.take_left pre rest)]
  exact List.drop_left pre rest

theorem stripTrailingLit_append (suf l : List Char) :
    stripTrailingLit suf (l ++ suf) = l := by
  unfold stripTrailingLit
  rw [List.reverse_append, stripLeadingLit_append]
  exact List.reverse_reverse l

/-- The clean-up strips exactly one leading fence line and one trailing
fence line and trims. -/
theorem cleanJsonText_fenced (J : String) :
    cleanJsonText ("```json\n" ++ J ++ "\n```") = jsTrim J := by
  unfold cleanJsonText
  have h1 : ("```json\n" ++ J ++ "\n```").toList
      = "```json\n".toList ++ (J.toList ++ "\n```".toList) := by
    simp [toList_eq_data, data_append, List.append_assoc]
  rw [h1, stripLeadingLit_append, stripTrailingLit_append]
  rfl

/-- C10: a response of the form one leading "```json" fence line, a valid
JSON text `J`, and one trailing fence line has exactly those two fences
stripped and parses to the parse of `J`; an unfenced valid JSON response
is returned parsed unchanged. -/
theorem claim_C10 :
    (∀ (J : String) (v : Json), jsParse J = some v →
      cleanJsonText ("```json\n" ++ J ++ "\n```") = jsTrim J
      ∧ analyzeStudentData (.success ("```json\n" ++ J ++ "\n```")) = .ok v)
    ∧ ∀ (t : String) (v : Json), jsParse t = some v →
      stripLeadingLit "```json\n".toList t.toList = t.toList →
      stripTrailingLit "\n```".toList t.toList = t.toList →
      analyzeStudentData (.success t) = .ok v := by
  constructor
  · intro J v h
    refine ⟨cleanJsonText_fenced J, ?_⟩
    simp only [analyzeStudentData, cleanJsonText_fenced, jsParse_jsTrim, h]
  · intro t v h h1 h2
    have hc : cleanJsonText t = jsTrim t := by
      unfold cleanJsonText
      rw [h1, h2]
      rfl
    simp only [analyzeStudentData, hc, jsParse_jsTrim, h]

/-- C10, witness: the fenced and unfenced forms of the JSON text `[]`. -/
theorem claim_C10_witness :
    (cleanJsonText ("```json\n" ++ "[]" ++ "\n```") = jsTrim "[]"
      ∧ analyzeStudentData (.success ("```json\n" ++ "[]" ++ "\n```"))
          = .ok (Json.arr []))
    ∧ analyzeStudentData (.success "[]") = .ok (Json.arr []) :=
  ⟨claim_C10.1 "[]" (Json.arr []) rfl,
   claim_C10.2 "[]" (Json.arr []) rfl rfl rfl⟩

end AdmNav
